import Mathlib

/-!
Verification of the larry-rgb gradient-effect plugin.

The development shallow-embeds the plugin's core (the package
`src/larry_rgb`: `__init__.py`, `colorlib.py`, `config.py`, `hardware.py`)
into Lean.  Pure Python functions become Lean functions; the engine's
stateful operations become explicit state-passing functions over an
`Effect` state record; device writes and pacing sleeps become explicit
event traces; the `asyncio.Lock` discipline is recorded by annotating each
traced event with whether the lock is held while it happens.

External collaborators (the `larry` color library's filters and
`Color.dominant`, the `colorthief` and `cairosvg` packages, the OpenRGB
client) are not part of this repository; following the specification they
are taken as opaque pure functions and appear as parameters of the
embedded definitions.  Two pieces are modelled from the specification and
are marked as such in their doc comments: the `Color.gradient`
interpolation (implemented in the external `larry` library) and the
`Config.timeofday` getter (referenced by `Effect.reset` but absent from
the packaged sources).

Machine reals (`float` in Python) carry only exactly-representable values
in every statement below (6.0, 20.0, 10.0, 0.5, ...), so they are embedded
as rationals.
-/

/-- An RGB triple, equality by channel values (the `larry` `Color` value
type as the spec describes it: three 8-bit channels, immutable). -/
structure Color where
  red : Int
  green : Int
  blue : Int
deriving DecidableEq, Repr

/-- An ordered list of colors (`larry.ColorList`). -/
abbrev ColorList := List Color

/-- The state of `itertools.cycle(colors)`: the underlying list plus the
cursor position of the iterator.  Advancing yields the element at the
cursor modulo the length and moves the cursor one step. -/
structure ColorCycle where
  elems : ColorList
  pos : Nat
deriving DecidableEq, Repr

/-- A junk color returned when advancing an empty cycle (Python's
`next(cycle([]))` raises `StopIteration`; theorems about cycles therefore
carry a non-emptiness hypothesis). -/
def junkColor : Color := ⟨0, 0, 0⟩

/-- The element `next(cycle)` yields in the current state. -/
def ColorCycle.peek (cy : ColorCycle) : Color :=
  cy.elems.getD (cy.pos % cy.elems.length) junkColor

/-- Python's `next` on an `itertools.cycle`: yield the element under the
cursor and advance the cursor. -/
def ColorCycle.next (cy : ColorCycle) : Color × ColorCycle :=
  (cy.peek, ⟨cy.elems, cy.pos + 1⟩)

/-- `itertools.cycle(colors)` freshly created: cursor at the start. -/
def cycleOf (colors : ColorList) : ColorCycle := ⟨colors, 0⟩

/-- Embedding of `colorlib.get_gradient_colors` (src/larry_rgb/colorlib.py
lines 15-19):

`return prev_stop_color if prev_stop_color else next(colors), next(colors)`

The Python tuple is evaluated left to right, so with no previous stop
color two elements are drawn from the cycle, otherwise one.  The advanced
cycle state is returned alongside the endpoint pair. -/
def get_gradient_colors (colors : ColorCycle) (prev_stop_color : Option Color) :
    (Color × Color) × ColorCycle :=
  match prev_stop_color with
  | some p =>
      let (b, c1) := colors.next
      ((p, b), c1)
  | none =>
      let (a, c1) := colors.next
      let (b, c2) := c1.next
      ((a, b), c2)

/-- Linear interpolation of one 8-bit channel, position `i` of `steps`
(floor rounding). -/
def gradientChannel (a b : Int) (steps i : Nat) : Int :=
  a + (b - a) * (i : Int) / ((steps : Int) - 1)

/-- Modelled from the spec: `Color.gradient(start, stop, steps)` lives in
the external `larry` color library, not in this repository; only its
callers (`set_gradient`) are under src.  Per spec section 4.1 it produces a
finite sequence of `steps` colors running linearly from `start` to `stop`,
inclusive of both endpoints; the spec leaves `steps < 2` implementation
defined, and this model emits `[stop]` for one step and nothing for zero
steps. -/
def Color.gradient (start stop : Color) (steps : Nat) : ColorList :=
  if steps < 2 then (if steps = 0 then [] else [stop])
  else
    (List.range steps).map fun i =>
      ⟨gradientChannel start.red stop.red steps i,
       gradientChannel start.green stop.green steps i,
       gradientChannel start.blue stop.blue steps i⟩

/-- An observable action of `set_gradient`: a color pushed to every device
(`rgb.set_color(color)`) or a pacing sleep of a given duration in seconds
(`await sleep(...)`). -/
inductive Ev
  | push (c : Color)
  | sleep (t : ℚ)
deriving DecidableEq, Repr

/-- The duration `set_gradient` sleeps after handling one color of the
interpolated sequence (src/larry_rgb/__init__.py line 120):
`end_wait if color in end_colors and pause_after_fade else interval`
with `end_wait = pause_after_fade / 2`. -/
def pacingSleep (endColors : Color × Color) (pause_after_fade interval : ℚ)
    (c : Color) : ℚ :=
  if (c = endColors.1 ∨ c = endColors.2) ∧ pause_after_fade ≠ 0 then
    pause_after_fade / 2
  else interval

/-- The `for color in Color.gradient(*end_colors, steps)` loop body of
`set_gradient` as an event trace: push the color unless it equals the
previously iterated color, then sleep per the pacing policy. -/
def segLoop (endColors : Color × Color) (pause_after_fade interval : ℚ) :
    List Color → Option Color → List Ev
  | [], _ => []
  | c :: rest, previous_color =>
      (if previous_color ≠ some c then [Ev.push c] else []) ++
        Ev.sleep (pacingSleep endColors pause_after_fade interval c) ::
          segLoop endColors pause_after_fade interval rest (some c)

/-- Embedding of `set_gradient` (src/larry_rgb/__init__.py lines 98-123):
returns the event trace of the device pushes and sleeps of one gradient
segment, the stop color `end_colors[1]` handed back to the caller, and the
advanced color cycle. -/
def set_gradient (colors : ColorCycle) (steps : Nat)
    (pause_after_fade interval : ℚ) (prev_stop_color : Option Color) :
    List Ev × Color × ColorCycle :=
  let r := get_gradient_colors colors prev_stop_color
  let end_colors := r.1
  (segLoop end_colors pause_after_fade interval
      (Color.gradient end_colors.1 end_colors.2 steps) none,
   end_colors.2, r.2)

/-- The sleep durations of a trace, in order. -/
def sleepsOf (tr : List Ev) : List ℚ :=
  tr.filterMap fun e => match e with | .sleep t => some t | _ => none

/-- The pushed colors of a trace, in order. -/
def pushesOf (tr : List Ev) : List Color :=
  tr.filterMap fun e => match e with | .push c => some c | _ => none


/-- The settings snapshot: the resolved values of the typed getters of
`Config` (src/larry_rgb/config.py), one field per getter.  The `colors`
field holds the parsed result of the `colors` getter (the
whitespace-separated color literals, empty when the key is absent). -/
structure Config where
  address : String
  steps : Nat
  interval : ℚ
  pause_after_fade : ℚ
  max_palette_size : Nat
  quality : Nat
  pastelize : Bool
  timeofday : Bool
  colors : ColorList
  intensity : ℚ
deriving DecidableEq, Repr

/-- Modelled from the spec: the `Config.timeofday` getter is read by
`Effect.reset` (src/larry_rgb/__init__.py line 87) but no such getter
appears in the packaged `config.py`; only its caller is under src.  It is
modelled as the `timeofday` field of the snapshot above, a boolean flag in
the style of the `pastelize` getter, selecting the spec's optional
time-of-day tinting filter.  This definition names the modelling choice so
theorems can reference it. -/
def Config.timeofdayModelled (config : Config) : Bool := config.timeofday

/-- The external collaborator functions used by `Effect.reset`, all from
the `larry` host library and outside this repository.  Per the spec
(sections 1 and 4.2) each color filter is an opaque pure function. -/
structure Collaborators where
  dominant : ColorList → Nat → ColorList
  pastelizeColor : Color → Color
  timeofdayFilter : ColorList → ColorList
  intensify : Color → ℚ → Color
  pluginFilter : ColorList → ColorList

/-- The color-list computation of `Effect.reset`
(src/larry_rgb/__init__.py lines 80-91), line by line:

`colors = config.colors or Color.dominant(colors, config.max_palette_size)`
(a Python `or`, so the explicit list is used exactly when non-empty), then
the conditional pastelize map, the conditional timeofday filter, the
unconditional intensify map with `config.intensity`, and finally
`apply_plugin_filter`. -/
def resetColors (ext : Collaborators) (input_colors : ColorList)
    (config : Config) : ColorList :=
  let colors :=
    if config.colors ≠ [] then config.colors
    else ext.dominant input_colors config.max_palette_size
  let colors := if config.pastelize then colors.map ext.pastelizeColor else colors
  let colors := if config.timeofday then ext.timeofdayFilter colors else colors
  let colors := colors.map fun color => ext.intensify color config.intensity
  ext.pluginFilter colors

/-- The filter stages of `Effect.reset` factored over an arbitrary palette
base, in source order: the conditional pastelize map, the conditional
timeofday filter, the unconditional intensify map with the snapshot's
intensity, and the plugin filter. -/
def filterStages (ext : Collaborators) (config : Config) (base : ColorList) :
    ColorList :=
  let c1 := if config.pastelize then base.map ext.pastelizeColor else base
  let c2 := if config.timeofday then ext.timeofdayFilter c1 else c1
  ext.pluginFilter (c2.map fun color => ext.intensify color config.intensity)

/-- The endpoint record of `hw.RGB` (src/larry_rgb/hardware.py lines
38-51): the address and port the OpenRGB client was created with.  The
client object itself is the hardware collaborator's handle and carries no
further observable state here. -/
structure RGB where
  address : String
  port : Nat
deriving DecidableEq, Repr

/-- The state of an `Effect` instance (src/larry_rgb/__init__.py lines
25-36): `self.config` is only annotated in `__init__`, never assigned, so
it is an `Option` that starts out `none`; `rgbCache` is the
`functools.cached_property` storage slot of the `rgb` property, also
initially unset; `colors` starts as `cycle([])` and `running` as false. -/
structure Effect where
  config : Option Config
  rgbCache : Option RGB
  colors : ColorCycle
  running : Bool
deriving DecidableEq, Repr

/-- A freshly constructed `Effect` (the `__init__` method). -/
def Effect.init : Effect := ⟨none, none, cycleOf [], false⟩

/-- The state change of `Effect.reset` (src/larry_rgb/__init__.py lines
78-95): compute the filtered color list, then, under the lock, replace the
cycle and the stored settings snapshot.  The cached `rgb` property is not
touched. -/
def Effect.reset (ext : Collaborators) (e : Effect) (input_colors : ColorList)
    (config : Config) : Effect :=
  { e with colors := cycleOf (resetColors ext input_colors config),
           config := some config }

/-- The body of `Effect.reset` contains no `raise` statement and no call
to `ensure_range`; with the collaborator filters taken as the pure
functions the spec declares them to be, the embedding is total.  This
`Except`-typed wrapper records that no error path exists in the source. -/
def Effect.resetE (ext : Collaborators) (e : Effect)
    (input_colors : ColorList) (config : Config) : Except String Effect :=
  .ok (Effect.reset ext e input_colors config)

/-- The state change of `Effect.stop` (src/larry_rgb/__init__.py lines
73-76): under the lock, set `running` to false.  A plain assignment: it
can raise nothing and touches no other field. -/
def Effect.stop (e : Effect) : Effect := { e with running := false }

/-- The startup action of `Effect.run` (src/larry_rgb/__init__.py lines
58-59): under the lock, set `running` to true.  This is the only place in
the module that writes `running = True`. -/
def Effect.runStartup (e : Effect) : Effect := { e with running := true }

/-- Python's `s.partition(":")` reduced to the two pieces the `rgb`
property uses: the text before the first colon and the text after it (the
latter empty both when the colon is absent and when nothing follows it). -/
def partitionColonAux : List Char → List Char × List Char
  | [] => ([], [])
  | c :: cs =>
      if c = ':' then ([], cs)
      else
        let r := partitionColonAux cs
        (c :: r.1, r.2)

/-- String-level wrapper of `partitionColonAux`. -/
def partitionColon (s : String) : String × String :=
  let r := partitionColonAux s.data
  (⟨r.1⟩, ⟨r.2⟩)

/-- The value of one decimal digit character, `none` for anything else. -/
def digitVal (c : Char) : Option Nat :=
  if 48 ≤ c.toNat ∧ c.toNat ≤ 57 then some (c.toNat - 48) else none

/-- Accumulator loop of the decimal parse. -/
def parseNatAux : List Char → Nat → Option Nat
  | [], acc => some acc
  | c :: cs, acc =>
      match digitVal c with
      | none => none
      | some d => parseNatAux cs (acc * 10 + d)

/-- Python's `int(s)` restricted to the plain decimal strings the `rgb`
property feeds it: `some` of the value on a non-empty all-digit string,
`none` (a `ValueError`) otherwise. -/
def parsePort (s : String) : Option Nat :=
  match s.data with
  | [] => none
  | cs => parseNatAux cs 0

/-- The `rgb` cached property (src/larry_rgb/__init__.py lines 38-51).  A
cache hit returns the stored instance unconditionally.  On a miss, if
`reset` has never assigned `self.config` the property raises
`RuntimeError("Effect has not been (re)set")`; otherwise the configured
address is split at the first colon, the port defaults to 6742 when the
part after the colon is empty (`int(port_str) if port_str else 6742`), and
the constructed `RGB` connection is stored in the cache slot. -/
def Effect.rgb (e : Effect) : Except String (RGB × Effect) :=
  match e.rgbCache with
  | some r => .ok (r, e)
  | none =>
      match e.config with
      | none => .error "Effect has not been (re)set"
      | some config =>
          let p := partitionColon config.address
          match (if p.2 ≠ "" then parsePort p.2 else some 6742) with
          | none => .error "invalid literal for int"
          | some port =>
              let r : RGB := ⟨p.1, port⟩
              .ok (r, { e with rgbCache := some r })

/-- Embedding of `ensure_range` (src/larry_rgb/__init__.py lines 144-151),
generic over the `Comparable` protocol:
raise `ValueError` unless `value_range[0] <= value <= value_range[1]`,
with the f-string default message built from the `repr` of the value and
the range. -/
def ensure_range {α : Type} [LE α] [DecidableRel ((· ≤ ·) : α → α → Prop)]
    [Repr α] (value : α)
    (value_range : α × α) (error : Option String) : Except String Unit :=
  if value_range.1 ≤ value ∧ value ≤ value_range.2 then .ok ()
  else
    .error (error.getD
      ("Value " ++ reprStr value ++ " is out of range " ++ reprStr value_range))

/-- An event of the engine's two concurrent operations, for recording the
lock discipline: taking or releasing `self.lock`, an action of
`set_gradient` (a device push or a pacing sleep), `reset`'s palette
computation, and `reset`'s swap of `self.colors`/`self.config`. -/
inductive REv
  | acquire
  | release
  | act (e : Ev)
  | buildPalette
  | swapState
deriving DecidableEq, Repr

/-- An event together with whether `self.lock` is held while it runs. -/
structure TEv where
  ev : REv
  locked : Bool
deriving DecidableEq, Repr

/-- Whether an event is a device push or a pacing sleep (the "device I/O
and sleeping" of the spec's concurrency contract). -/
def REv.isAct : REv → Bool
  | .act _ => true
  | _ => false

/-- One iteration of the `while self.running` loop of `Effect.run`
(src/larry_rgb/__init__.py lines 61-70).  The body is

`async with self.lock: stop_color = await set_gradient(self.rgb,
self.colors, self.config.steps, self.config.pause_after_fade,
self.config.interval, stop_color)`

so the loop acquires the lock, runs the whole gradient segment — every
device push and every pacing sleep — while holding it, and releases it
only at the segment boundary.  `config` and `colors` are the values of
`self.config` and `self.colors` read afresh at the top of this iteration.
Returns the lock-annotated trace, the stop color carried to the next
iteration, and the advanced cycle written back to `self.colors`. -/
def Effect.runIteration (config : Config) (colors : ColorCycle)
    (prev_stop_color : Option Color) : List TEv × Color × ColorCycle :=
  let r := set_gradient colors config.steps config.pause_after_fade
      config.interval prev_stop_color
  (⟨.acquire, false⟩ :: (r.1.map fun e => ⟨.act e, true⟩) ++ [⟨.release, true⟩],
   r.2.1, r.2.2)

/-- The lock-annotated event trace of `Effect.reset`
(src/larry_rgb/__init__.py lines 78-95): the whole palette computation
(lines 80-91) runs before the lock is taken; `async with self.lock:`
guards only the two assignments to `self.colors` and `self.config`.
`reset` performs no device push and no sleep and takes the lock exactly
once. -/
def Effect.resetTrace : List TEv :=
  [⟨.buildPalette, false⟩, ⟨.acquire, false⟩, ⟨.swapState, true⟩,
   ⟨.release, true⟩]

/-- The exceptions `get_color_thief` distinguishes:
`PIL.UnidentifiedImageError` (an unreadable raster image),
`xml.etree.ElementTree.ParseError` (an invalid SVG), and any other
exception a collaborator may raise. -/
inductive PyErr
  | unidentifiedImage (msg : String)
  | parseError (msg : String)
  | otherError (msg : String)
deriving DecidableEq, Repr

/-- Embedding of `colorlib.get_color_thief` (src/larry_rgb/colorlib.py
lines 29-51), parametrized by the external collaborators: `colorThief`
builds a `ColorThief` from a filename, `svg2png` is
`cairosvg.svg2png(url=...)` wrapped by `convert_svg_to_png`, and
`colorThiefPng` builds a `ColorThief` from the converted PNG bytes written
to the temporary file.  The `try` catches only `PIL.UnidentifiedImageError`
from the first attempt; inside the fallback, only
`ElementTree.ParseError` is caught, and that handler re-raises the
original `unidentified_image_error` object. -/
def get_color_thief {T B : Type} (colorThief : String → Except PyErr T)
    (svg2png : String → Except PyErr B) (colorThiefPng : B → Except PyErr T)
    (filename : String) : Except PyErr T :=
  match colorThief filename with
  | .ok t => .ok t
  | .error e =>
      match e with
      | .unidentifiedImage m =>
          match svg2png filename with
          | .ok png => colorThiefPng png
          | .error e2 =>
              match e2 with
              | .parseError _ => .error (PyErr.unidentifiedImage m)
              | _ => .error e2
      | _ => .error e


/-- Concrete collaborator functions used to instantiate witnesses and
counterexamples: capping as the palette extractor and identity filters. -/
def extId : Collaborators :=
  { dominant := fun colors n => colors.take n
    pastelizeColor := id
    timeofdayFilter := id
    intensify := fun color _ => color
    pluginFilter := id }

/-- A concrete settings snapshot with the getters' documented defaults
(address "localhost", steps 20, max_palette_size 10, quality 10, flags
off, no explicit colors), with an integral interval for concrete
evaluation. -/
def cfgBase : Config :=
  { address := "localhost"
    steps := 20
    interval := 6
    pause_after_fade := 0
    max_palette_size := 10
    quality := 10
    pastelize := false
    timeofday := false
    colors := []
    intensity := 0 }

/-- The snapshot of the spec's pacing example: steps 5, interval 6,
pause_after_fade 20. -/
def cfgSeg : Config :=
  { cfgBase with steps := 5, interval := 6, pause_after_fade := 20 }

/-- A snapshot whose intensity 1.5 lies outside the documented range. -/
def cfgIntensityBad : Config := { cfgBase with intensity := 3 / 2 }

/-- A snapshot naming hardware endpoint a, port 1. -/
def cfgEndpointA : Config := { cfgBase with address := "a:1" }

/-- A snapshot naming hardware endpoint b, port 2. -/
def cfgEndpointB : Config := { cfgBase with address := "b:2" }

/-- A snapshot whose address carries an explicit port. -/
def cfgPolaris : Config := { cfgBase with address := "polaris:666" }

/-- A snapshot carrying an explicit color list. -/
def cfgExplicit : Config :=
  { cfgBase with colors := [⟨255, 0, 0⟩, ⟨0, 0, 0⟩] }

/-- The engine state after a first reset against endpoint a:1 followed by
a first access to the `rgb` property: the connection to a:1 is in the
cache slot. -/
def eConnectedA : Effect :=
  { Effect.reset extId Effect.init [] cfgEndpointA with
      rgbCache := some ⟨"a", 1⟩ }

/-! Shared helper lemmas about the segment loop and the modelled gradient. -/

/-- The segment loop sleeps exactly once per position of the interpolated
sequence, for the duration given by the pacing policy at that color. -/
theorem sleepsOf_segLoop (endColors : Color × Color) (pause interval : ℚ) :
    ∀ (seq : List Color) (prev : Option Color),
      sleepsOf (segLoop endColors pause interval seq prev) =
        seq.map (pacingSleep endColors pause interval) := by
  intro seq
  induction seq with
  | nil => intro prev; rfl
  | cons c rest ih =>
      intro prev
      simp only [segLoop, sleepsOf, List.filterMap_append, List.filterMap_cons]
      split
      · simp only [List.filterMap, List.map_cons, List.nil_append]
        rw [show (List.filterMap _ (segLoop endColors pause interval rest (some c))) =
          sleepsOf (segLoop endColors pause interval rest (some c)) from rfl, ih]
      · simp only [List.filterMap_nil, List.map_cons, List.nil_append]
        rw [show (List.filterMap _ (segLoop endColors pause interval rest (some c))) =
          sleepsOf (segLoop endColors pause interval rest (some c)) from rfl, ih]

/-- Relation between the segment loop's pushed colors and Mathlib's
`List.destutter'`: with `a` as the previously sent color, the loop pushes
exactly the destuttering of the rest, minus the already-sent head. -/
theorem destutter'_eq_pushesOf (endColors : Color × Color)
    (pause interval : ℚ) :
    ∀ (seq : List Color) (a : Color),
      List.destutter' (· ≠ ·) a seq =
        a :: pushesOf (segLoop endColors pause interval seq (some a)) := by
  intro seq
  induction seq with
  | nil => intro a; rfl
  | cons b rest ih =>
      intro a
      by_cases hab : a ≠ b
      · rw [List.destutter'_cons_pos _ hab, ih b]
        simp only [segLoop, pushesOf, List.filterMap_append, List.filterMap_cons]
        rw [if_pos (by simpa using hab)]
        rfl
      · rw [List.destutter'_cons_neg _ hab, ih a]
        simp only [segLoop, pushesOf, List.filterMap_append, List.filterMap_cons]
        rw [if_neg (by simpa using hab)]
        push_neg at hab
        subst hab
        rfl

/-- Starting a segment with no previously sent color, the pushed colors
are exactly the input sequence with consecutive duplicates removed. -/
theorem pushesOf_segLoop_none (endColors : Color × Color)
    (pause interval : ℚ) (seq : List Color) :
    pushesOf (segLoop endColors pause interval seq none) =
      seq.destutter (· ≠ ·) := by
  cases seq with
  | nil => rfl
  | cons c rest =>
      simp only [segLoop, pushesOf, List.filterMap_append, List.filterMap_cons]
      rw [if_pos (by simp)]
      simp only [List.destutter]
      rw [destutter'_eq_pushesOf endColors pause interval rest c]
      rfl

/-- Destuttering a constant run keeps only its first element. -/
theorem destutter'_replicate (c : Color) :
    ∀ n : Nat, List.destutter' (· ≠ ·) c (List.replicate n c) = [c] := by
  intro n
  induction n with
  | zero => rfl
  | succ m ih =>
      rw [List.replicate_succ, List.destutter'_cons_neg _ (by simp), ih]

/-- Interpolating from a color to itself yields a constant sequence. -/
theorem gradient_self (c : Color) (n : Nat) :
    Color.gradient c c n = List.replicate n c := by
  match n with
  | 0 => rfl
  | 1 => rfl
  | k + 2 =>
      have h2 : ¬(k + 2 < 2) := by omega
      simp only [Color.gradient, if_neg h2]
      have hcong : ∀ i ∈ List.range (k + 2),
          (⟨gradientChannel c.red c.red (k + 2) i,
            gradientChannel c.green c.green (k + 2) i,
            gradientChannel c.blue c.blue (k + 2) i⟩ : Color) = c := by
        intro i _
        simp [gradientChannel]
      rw [List.map_congr_left hcong]
      rw [List.map_const', List.length_range]

/-- C2.  `get_gradient_colors` chains gradient endpoints: with a previous
stop color present the start is that color and the stop is the next color
drawn from the cycle; with none, both endpoints are drawn from the cycle.
Concretely, cycling over `[a, b, c]` and threading the advanced cycle and
the returned stop color through three calls yields `(a, b)`, `(b, c)`,
`(c, a)`. -/
theorem gradient_endpoint_chaining :
    (∀ (cy : ColorCycle) (p : Color), cy.elems ≠ [] →
      (get_gradient_colors cy (some p)).1.1 = p ∧
      (get_gradient_colors cy (some p)).1.2 = cy.peek ∧
      (get_gradient_colors cy (some p)).2 = (cy.next).2) ∧
    (∀ (cy : ColorCycle), cy.elems ≠ [] →
      (get_gradient_colors cy none).1.1 = cy.peek ∧
      (get_gradient_colors cy none).1.2 = (cy.next).2.peek ∧
      (get_gradient_colors cy none).2 = ((cy.next).2.next).2) ∧
    (∀ (a b c : Color),
      (get_gradient_colors (cycleOf [a, b, c]) none).1 = (a, b) ∧
      (get_gradient_colors
          (get_gradient_colors (cycleOf [a, b, c]) none).2 (some b)).1 = (b, c) ∧
      (get_gradient_colors
          (get_gradient_colors
            (get_gradient_colors (cycleOf [a, b, c]) none).2 (some b)).2
          (some c)).1 = (c, a)) := by
  refine ⟨fun cy p _ => ⟨rfl, rfl, rfl⟩, fun cy _ => ⟨rfl, rfl, rfl⟩,
    fun a b c => ?_⟩
  refine ⟨rfl, ?_, ?_⟩ <;>
    simp [get_gradient_colors, cycleOf, ColorCycle.next, ColorCycle.peek]

/-- C2 witness: the chaining theorem applied to a concrete cycle. -/
theorem gradient_endpoint_chaining_witness :
    (get_gradient_colors (cycleOf [(⟨255, 0, 0⟩ : Color), ⟨0, 128, 0⟩]) (some ⟨9, 9, 9⟩)).1.1
        = ⟨9, 9, 9⟩ ∧
    (get_gradient_colors (cycleOf [(⟨255, 0, 0⟩ : Color), ⟨0, 128, 0⟩]) none).1.1
        = (cycleOf [(⟨255, 0, 0⟩ : Color), ⟨0, 128, 0⟩]).peek :=
  ⟨(gradient_endpoint_chaining.1 (cycleOf [⟨255, 0, 0⟩, ⟨0, 128, 0⟩]) ⟨9, 9, 9⟩
      (by decide)).1,
   (gradient_endpoint_chaining.2.1 (cycleOf [⟨255, 0, 0⟩, ⟨0, 128, 0⟩])
      (by decide)).1⟩

/-- C3.  The pacing policy of `set_gradient`: the per-segment sleep
durations are exactly the interpolated sequence mapped through
`pacingSleep`, which sleeps `pause_after_fade / 2` at a color equal to one
of the two segment endpoints when `pause_after_fade` is nonzero and
`interval` otherwise; with `steps = 5`, `interval = 6`,
`pause_after_fade = 20` the per-segment sleep sequence is exactly
`[10, 6, 6, 6, 10]`. -/
theorem pacing_policy :
    (∀ (colors : ColorCycle) (steps : Nat) (pause_after_fade interval : ℚ)
        (prev : Option Color),
      sleepsOf (set_gradient colors steps pause_after_fade interval prev).1 =
        (Color.gradient (get_gradient_colors colors prev).1.1
            (get_gradient_colors colors prev).1.2 steps).map
          (pacingSleep (get_gradient_colors colors prev).1 pause_after_fade
            interval)) ∧
    sleepsOf (set_gradient (cycleOf [⟨255, 0, 0⟩, ⟨0, 128, 0⟩, ⟨0, 0, 255⟩])
        5 20 6 none).1 = [10, 6, 6, 6, 10] := by
  constructor
  · intro colors steps pause_after_fade interval prev
    simp only [set_gradient]
    rw [sleepsOf_segLoop]
  · simp +decide [set_gradient, get_gradient_colors, ColorCycle.next,
      ColorCycle.peek, cycleOf, junkColor, Color.gradient, gradientChannel,
      segLoop, pacingSleep, sleepsOf, List.range_succ]
    norm_num

/-- C7.  Within one segment a color equal to the immediately previously
iterated color is not re-sent: the pushed colors are the interpolated
sequence with consecutive duplicates removed while a sleep still happens
at every position; in particular a degenerate segment over the one-color
cycle `[c]` pushes exactly once despite `steps` iterations and still
sleeps `steps` times. -/
theorem duplicate_push_suppression :
    (∀ (endColors : Color × Color) (pause_after_fade interval : ℚ)
        (seq : List Color),
      pushesOf (segLoop endColors pause_after_fade interval seq none) =
        seq.destutter (· ≠ ·) ∧
      (sleepsOf (segLoop endColors pause_after_fade interval seq none)).length =
        seq.length) ∧
    (∀ (c : Color) (steps : Nat) (pause_after_fade interval : ℚ),
      0 < steps →
      pushesOf (set_gradient (cycleOf [c]) steps pause_after_fade interval
          none).1 = [c] ∧
      (sleepsOf (set_gradient (cycleOf [c]) steps pause_after_fade interval
          none).1).length = steps) := by
  constructor
  · intro endColors pause_after_fade interval seq
    exact ⟨pushesOf_segLoop_none _ _ _ _, by rw [sleepsOf_segLoop]; simp⟩
  · intro c steps pause_after_fade interval hsteps
    have hend : (get_gradient_colors (cycleOf [c]) none).1 = (c, c) := by
      simp [get_gradient_colors, cycleOf, ColorCycle.next, ColorCycle.peek]
    constructor
    · simp only [set_gradient, hend]
      rw [pushesOf_segLoop_none, gradient_self]
      obtain ⟨m, rfl⟩ : ∃ m, steps = m + 1 :=
        ⟨steps - 1, by omega⟩
      rw [List.replicate_succ]
      simp only [List.destutter]
      exact destutter'_replicate c m
    · simp only [set_gradient, hend]
      rw [sleepsOf_segLoop, gradient_self]
      simp

/-- C7 witness: the degenerate one-color segment at `steps = 5`. -/
theorem duplicate_push_suppression_witness :
    pushesOf (set_gradient (cycleOf [(⟨45, 23, 212⟩ : Color)]) 5 20 6 none).1 =
        [⟨45, 23, 212⟩] ∧
    (sleepsOf (set_gradient (cycleOf [(⟨45, 23, 212⟩ : Color)]) 5 20 6
        none).1).length = 5 :=
  duplicate_push_suppression.2 ⟨45, 23, 212⟩ 5 20 6 (by decide)

/-- C9.  `stop` only writes `running = false`: it is idempotent, a no-op
on an already-stopped engine, and can never set `running` to true; `reset`
leaves `running` untouched and only `run`'s own startup sets it true. -/
theorem stop_idempotent_one_directional :
    ∀ (e : Effect),
      (Effect.stop e).running = false ∧
      Effect.stop (Effect.stop e) = Effect.stop e ∧
      (e.running = false → Effect.stop e = e) ∧
      (∀ (ext : Collaborators) (ic : ColorList) (config : Config),
        (Effect.reset ext e ic config).running = e.running) ∧
      (Effect.runStartup e).running = true := by
  intro e
  refine ⟨rfl, rfl, ?_, fun _ _ _ => rfl, rfl⟩
  intro h
  cases e
  simp_all [Effect.stop]

/-- C9 witness: stopping the freshly constructed (already stopped) engine
leaves it unchanged. -/
theorem stop_idempotent_one_directional_witness :
    Effect.stop Effect.init = Effect.init :=
  (stop_idempotent_one_directional Effect.init).2.2.1 rfl

/-- C10.  On a fresh `Effect` with no completed `reset`, the `rgb`
property raises `RuntimeError("Effect has not been (re)set")`; after a
reset it splits the configured address at the first colon, defaults the
port to 6742 when nothing follows the colon, and otherwise uses the
parsed port. -/
theorem rgb_unset_error_and_port_default :
    Effect.rgb Effect.init = .error "Effect has not been (re)set" ∧
    (∀ (ext : Collaborators) (e : Effect) (ic : ColorList) (config : Config),
      e.rgbCache = none → (partitionColon config.address).2 = "" →
      Effect.rgb (Effect.reset ext e ic config) =
        .ok (⟨(partitionColon config.address).1, 6742⟩,
          { Effect.reset ext e ic config with
              rgbCache := some ⟨(partitionColon config.address).1, 6742⟩ })) ∧
    (∀ (ext : Collaborators) (e : Effect) (ic : ColorList) (config : Config)
        (port : Nat),
      e.rgbCache = none → (partitionColon config.address).2 ≠ "" →
      parsePort (partitionColon config.address).2 = some port →
      Effect.rgb (Effect.reset ext e ic config) =
        .ok (⟨(partitionColon config.address).1, port⟩,
          { Effect.reset ext e ic config with
              rgbCache := some ⟨(partitionColon config.address).1, port⟩ })) := by
  refine ⟨rfl, ?_, ?_⟩
  · intro ext e ic config h1 h2
    simp [Effect.rgb, Effect.reset, h1, h2]
  · intro ext e ic config port h1 h2 h3
    simp [Effect.rgb, Effect.reset, h1, h2, h3]

/-- C10 witness: the default address yields port 6742, an explicit
`host:port` address yields the parsed port. -/
theorem rgb_unset_error_and_port_default_witness :
    Effect.rgb (Effect.reset extId Effect.init [] cfgBase) =
      .ok (⟨(partitionColon cfgBase.address).1, 6742⟩,
        { Effect.reset extId Effect.init [] cfgBase with
            rgbCache := some ⟨(partitionColon cfgBase.address).1, 6742⟩ }) ∧
    Effect.rgb (Effect.reset extId Effect.init [] cfgPolaris) =
      .ok (⟨(partitionColon cfgPolaris.address).1, 666⟩,
        { Effect.reset extId Effect.init [] cfgPolaris with
            rgbCache := some ⟨(partitionColon cfgPolaris.address).1, 666⟩ }) :=
  ⟨rgb_unset_error_and_port_default.2.1 extId Effect.init [] cfgBase rfl
      (by decide),
   rgb_unset_error_and_port_default.2.2 extId Effect.init [] cfgPolaris 666 rfl
      (by decide) (by decide)⟩

/-- C5 counterexample: connect once against endpoint a:1, then reset to
endpoint b:2; the next access to the device sink returns the cached
connection to a:1, not a connection to the new endpoint b:2 as the claim
requires. -/
theorem endpoint_change_reconnects_cx :
    Effect.rgb (Effect.reset extId Effect.init [] cfgEndpointA) =
      .ok (⟨"a", 1⟩, eConnectedA) ∧
    Effect.rgb (Effect.reset extId eConnectedA [] cfgEndpointB) =
      .ok (⟨"a", 1⟩, Effect.reset extId eConnectedA [] cfgEndpointB) ∧
    (⟨"a", 1⟩ : RGB) ≠ (⟨"b", 2⟩ : RGB) := by
  exact ⟨rfl, rfl, by decide⟩

/-- C5 amended.  The connection is created lazily on first access to the
`rgb` property and cached unconditionally on the `Effect` instance:
`reset` never touches the cache slot, a cache hit wins regardless of the
current settings, so a reset supplying a different `address:port` does not
cause any reconnection, and the first created connection is what gets
cached. -/
theorem rgb_cached_per_instance :
    (∀ (ext : Collaborators) (e : Effect) (ic : ColorList) (config : Config),
      (Effect.reset ext e ic config).rgbCache = e.rgbCache) ∧
    (∀ (e : Effect) (r : RGB), e.rgbCache = some r →
      Effect.rgb e = .ok (r, e)) ∧
    (∀ (ext : Collaborators) (e : Effect) (ic : ColorList) (config : Config)
        (r : RGB), e.rgbCache = some r →
      Effect.rgb (Effect.reset ext e ic config) =
        .ok (r, Effect.reset ext e ic config)) ∧
    (∀ (e : Effect) (r : RGB) (e2 : Effect),
      e.rgbCache = none → Effect.rgb e = .ok (r, e2) →
      e2.rgbCache = some r) := by
  refine ⟨fun _ _ _ _ => rfl, ?_, ?_, ?_⟩
  · intro e r h
    simp [Effect.rgb, h]
  · intro ext e ic config r h
    simp [Effect.rgb, Effect.reset, h]
  · intro e r e2 h1 h2
    simp only [Effect.rgb, h1] at h2
    split at h2
    · simp at h2
    · split at h2
      · simp at h2
      · simp only [Except.ok.injEq, Prod.mk.injEq] at h2
        obtain ⟨hr, he⟩ := h2
        rw [← he, ← hr]

/-- C5 amended witness: the cached a:1 connection survives a reset naming
endpoint b:2. -/
theorem rgb_cached_per_instance_witness :
    Effect.rgb (Effect.reset extId eConnectedA [] cfgEndpointB) =
      .ok (⟨"a", 1⟩, Effect.reset extId eConnectedA [] cfgEndpointB) :=
  rgb_cached_per_instance.2.2.1 extId eConnectedA [] cfgEndpointB ⟨"a", 1⟩ rfl

/-- C6.  When the raster decode raises `PIL.UnidentifiedImageError` and
the SVG fallback conversion raises `ElementTree.ParseError`, the error
surfacing from `get_color_thief` is the original unreadable-image error,
not the SVG parse error. -/
theorem svg_fallback_preserves_original_error {T B : Type}
    (colorThief : String → Except PyErr T)
    (svg2png : String → Except PyErr B) (colorThiefPng : B → Except PyErr T)
    (filename : String) (m m2 : String)
    (h1 : colorThief filename = .error (.unidentifiedImage m))
    (h2 : svg2png filename = .error (.parseError m2)) :
    get_color_thief colorThief svg2png colorThiefPng filename =
      .error (.unidentifiedImage m) := by
  simp [get_color_thief, h1, h2]

/-- C6 witness: concrete collaborators where both the raster decode and
the SVG conversion fail. -/
theorem svg_fallback_preserves_original_error_witness :
    get_color_thief
      (fun _ : String =>
        (.error (.unidentifiedImage "cannot identify image file") :
          Except PyErr Unit))
      (fun _ : String => (.error (.parseError "syntax error") :
        Except PyErr Unit))
      (fun _ : Unit => (.ok () : Except PyErr Unit)) "bad.svg" =
      .error (.unidentifiedImage "cannot identify image file") :=
  svg_fallback_preserves_original_error _ _ _ "bad.svg"
    "cannot identify image file" "syntax error" rfl rfl

/-- C4 counterexample: `reset` does not raise on the out-of-range
intensity 1.5.  The snapshot's intensity is 1.5, which violates the
documented range, yet `reset` completes returning an updated state — with
the collaborator filters being the pure functions the spec declares them
to be, no error path exists in `reset`'s body — while the repository's own
`ensure_range`, which does reject 1.5 against the range (-1, 1), is never
called by `reset`. -/
theorem reset_intensity_validation_cx :
    cfgIntensityBad.intensity = 3 / 2 ∧
    ¬((-1 : ℚ) ≤ 3 / 2 ∧ (3 / 2 : ℚ) ≤ 1) ∧
    (Effect.resetE extId Effect.init [] cfgIntensityBad).isOk = true ∧
    (ensure_range (3 / 2 : ℚ) (-1, 1) none).isOk = false := by
  refine ⟨rfl, by norm_num, rfl, ?_⟩
  rw [ensure_range, if_neg (by norm_num)]
  rfl

/-- C4 amended.  `reset` performs no intensity validation at all: for
every settings snapshot, in range or not, it completes without raising and
hands the intensity value to the external intensify filter, and it pushes
no color to any device; the repository's `ensure_range` accepts a value
exactly when it lies inside the given range, but nothing in the module
ever calls it. -/
theorem reset_no_intensity_validation :
    (∀ (ext : Collaborators) (e : Effect) (ic : ColorList) (config : Config),
      Effect.resetE ext e ic config = .ok (Effect.reset ext e ic config)) ∧
    (∀ (v lo hi : ℚ),
      (ensure_range v (lo, hi) none).isOk = true ↔ (lo ≤ v ∧ v ≤ hi)) ∧
    (Effect.resetTrace.all fun e => !e.ev.isAct) = true := by
  refine ⟨fun _ _ _ _ => rfl, ?_, by decide⟩
  intro v lo hi
  by_cases h : lo ≤ v ∧ v ≤ hi
  · rw [ensure_range, if_pos h]
    simp [Except.isOk, Except.toBool, h]
  · rw [ensure_range, if_neg h]
    simp [Except.isOk, Except.toBool, h]

/-- C8.  For every settings snapshot: a non-empty configured color list is
used verbatim as the palette base and the extraction collaborator is not
consulted (the result does not depend on it at all); an empty list makes
the base the dominant-color extraction of the input colors capped at
`max_palette_size`; in both cases the filter stages (pastelize when
enabled, timeofday when enabled, intensify, plugin filter) are then
applied to that base, and `reset` stores the resulting cycle. -/
theorem reset_palette_pipeline :
    ∀ (ext : Collaborators) (e : Effect) (ic : ColorList) (config : Config),
      (config.colors ≠ [] →
        resetColors ext ic config = filterStages ext config config.colors ∧
        ∀ dom2 : ColorList → Nat → ColorList,
          resetColors { ext with dominant := dom2 } ic config =
            resetColors ext ic config) ∧
      (config.colors = [] →
        resetColors ext ic config =
          filterStages ext config (ext.dominant ic config.max_palette_size)) ∧
      (Effect.reset ext e ic config).colors =
        cycleOf (resetColors ext ic config) := by
  intro ext e ic config
  refine ⟨?_, ?_, rfl⟩
  · intro h
    exact ⟨by simp [resetColors, filterStages, h], fun dom2 => by
      simp [resetColors, h]⟩
  · intro h
    simp [resetColors, filterStages, h]

/-- C8 witness: the pipeline at a snapshot with explicit colors and at one
without. -/
theorem reset_palette_pipeline_witness :
    resetColors extId [] cfgExplicit =
      filterStages extId cfgExplicit cfgExplicit.colors ∧
    resetColors extId [⟨1, 2, 3⟩] cfgBase =
      filterStages extId cfgBase
        (extId.dominant [⟨1, 2, 3⟩] cfgBase.max_palette_size) :=
  ⟨((reset_palette_pipeline extId Effect.init [] cfgExplicit).1
      (by decide)).1,
   (reset_palette_pipeline extId Effect.init [⟨1, 2, 3⟩] cfgBase).2.1 rfl⟩

/-- C1 counterexample: in one run-loop iteration at a concrete state, not
every device push and pacing sleep happens outside the lock — refuting the
claim's central conjunct, since the loop body wraps the whole
`set_gradient` call in `async with self.lock`. -/
theorem run_io_outside_lock_cx :
    ¬(∀ e ∈ (Effect.runIteration cfgSeg
        (cycleOf [⟨255, 0, 0⟩, ⟨0, 128, 0⟩]) none).1,
      e.ev.isAct = true → e.locked = false) := by
  decide

/-- C1 amended.  Every device push and pacing sleep of a run-loop
iteration happens while the lock is held (the body holds `self.lock`
across the whole segment, so a concurrent `reset` can block for up to one
full segment, not one bare lock acquisition); `reset` itself never raises,
computes the palette before taking the lock and locks only the state
swap; and a completed `reset` is exactly what the next iteration reads:
the freshly stored cycle and settings, so new colors take effect at the
next segment boundary. -/
theorem run_loop_lock_discipline :
    (∀ (config : Config) (colors : ColorCycle) (prev : Option Color),
      ∀ e ∈ (Effect.runIteration config colors prev).1,
        e.ev.isAct = true → e.locked = true) ∧
    (∀ (ext : Collaborators) (e : Effect) (ic : ColorList) (config : Config),
      Effect.resetE ext e ic config = .ok (Effect.reset ext e ic config)) ∧
    (∀ e ∈ Effect.resetTrace, e.ev.isAct = false) ∧
    (∀ e ∈ Effect.resetTrace, e.ev = REv.buildPalette → e.locked = false) ∧
    (∀ e ∈ Effect.resetTrace, e.ev = REv.swapState → e.locked = true) ∧
    ((Effect.resetTrace.filter fun e => decide (e.ev = REv.acquire)).length
      = 1) ∧
    (∀ (ext : Collaborators) (e : Effect) (ic : ColorList) (config : Config)
        (prev : Option Color),
      (Effect.reset ext e ic config).config = some config ∧
      (Effect.reset ext e ic config).colors =
        cycleOf (resetColors ext ic config) ∧
      Effect.runIteration config (Effect.reset ext e ic config).colors prev =
        Effect.runIteration config (cycleOf (resetColors ext ic config))
          prev) := by
  refine ⟨?_, fun _ _ _ _ => rfl, by decide, by decide, by decide, by decide,
    fun _ _ _ _ _ => ⟨rfl, rfl, rfl⟩⟩
  intro config colors prev e he hact
  simp only [Effect.runIteration, List.mem_cons, List.mem_append,
    List.mem_map, List.mem_singleton] at he
  rcases he with (rfl | ⟨x, hx, rfl⟩) | (rfl | h0)
  · exact absurd hact (by simp [REv.isAct])
  · rfl
  · rfl
  · exact absurd h0 (by simp)

/-- C1 amended witness: a concrete device push of a concrete iteration is
in the trace and carries the lock. -/
theorem run_loop_lock_discipline_witness :
    (⟨REv.act (Ev.push ⟨255, 0, 0⟩), true⟩ : TEv) ∈
      (Effect.runIteration cfgSeg (cycleOf [⟨255, 0, 0⟩, ⟨0, 128, 0⟩])
        none).1 ∧
    (⟨REv.act (Ev.push ⟨255, 0, 0⟩), true⟩ : TEv).locked = true :=
  ⟨by decide,
   run_loop_lock_discipline.1 cfgSeg (cycleOf [⟨255, 0, 0⟩, ⟨0, 128, 0⟩])
     none ⟨REv.act (Ev.push ⟨255, 0, 0⟩), true⟩ (by decide) rfl⟩
